import Mathlib

/-!
Shallow embedding of `webapp/publisher/snaps/build_views.py` (snapcraft.io
publisher build views).  The module is a thin Flask request-handling layer:
every handler reads data from three external HTTP services (the dashboard
API, the Launchpad build farm, the GitHub API), reshapes it and answers.
We embed each handler as a pure Lean function over an explicit environment
record describing the answers of those external services, and we record the
observable effects (HTTP response, flash messages, which outbound mutating
calls were made) in an explicit result structure.

Python strings are embedded as Lean `String`; Python `None`-able values as
`Option`; calls that may raise `requests.exceptions.HTTPError` as
`Except Nat` carrying the HTTP status code of the error response.
-/

/-! ## Python string and slice primitives used by the source -/

/-- Python `s[n:]`: drop the first `n` characters (total, short strings give ""). -/
def pyDrop (n : Nat) (s : String) : String :=
  String.mk (s.data.drop n)

/-- One step of the Python split: prepend character `x` to an already split
tail (the `[]` case never arises: a split result is never the empty list). -/
def pySplitStep (c x : Char) : List (List Char) → List (List Char)
  | [] => [[]]
  | y :: ys => if x = c then [] :: y :: ys else (x :: y) :: ys

/-- Python `s.split(sep)` for a one-character separator `c`, on the underlying
character list.  Mirrors CPython: splitting the empty string gives `[[]]`,
adjacent separators give empty segments, result is never the empty list. -/
def pySplitChar (c : Char) : List Char → List (List Char)
  | [] => [[]]
  | x :: xs => pySplitStep c x (pySplitChar c xs)

/-- Python `build["self_link"].split("/")[-1]`: the last element of the split. -/
def pyLastSegment (s : String) : String :=
  String.mk ((pySplitChar '/' s.data).getLastD [])

/-- Python `s.split("/")` unpacked into exactly two variables
(`owner, repo = s.split("/")`); `none` models the `ValueError` raised when
the split does not have exactly two parts. -/
def pySplitOwnerRepo (s : String) : Option (String × String) :=
  match pySplitChar '/' s.data with
  | [a, b] => some (String.mk a, String.mk b)
  | _ => none

/-- A Python `slice(start, stop)` object (no step), as built by
`slice(0, BUILDS_PER_PAGE)` and `slice(start, size)` in the source. -/
structure PySlice where
  start : Int
  stop : Int
deriving DecidableEq, Repr

/-- Clamp one slice endpoint to list length `n`, CPython semantics:
negative indices count from the end, then everything is clamped to `[0, n]`. -/
def pyClampIndex (n : Nat) (i : Int) : Nat :=
  if i < 0 then n - min n (-i).toNat else min i.toNat n

/-- Python `l[sel]` for a slice `sel` without step. -/
def pyGetSlice (sel : PySlice) (l : List α) : List α :=
  (l.take (pyClampIndex l.length sel.stop)).drop (pyClampIndex l.length sel.start)

/-! ## Data model: remote records from Launchpad -/

/-- One build record as returned by `launchpad.get_snap_builds` /
`launchpad.get_snap_build` (the JSON fields the source reads). -/
structure LPBuild where
  self_link : String
  arch_tag : String
  datebuilt : String
  duration : String
  build_log_url : Option String
  revision_id : Option String
  buildstate : String
  store_upload_status : Option String
  title : String
deriving DecidableEq, Repr

/-- A Launchpad snap record as read by the handlers
(`lp_snap["store_name"]`, `lp_snap["git_repository_url"]`). -/
structure LPSnap where
  store_name : String
  git_repository_url : String
deriving DecidableEq, Repr

/-- The Launchpad snap record used by the `post_snap_builds` md5 lookup,
where `store_name` may be null (`if not repo_exist["store_name"]`). -/
structure LPSnapRecord where
  store_name : Option String
  self_link : String
deriving DecidableEq, Repr

/-- The answers of the Launchpad API, as far as the handlers read them.
`get_builders_status` models `launchpad.get_builders_status()[arch_tag]
["estimated_duration"]` as a total map from architecture tag to the
estimated-duration value.  `get_snap_by_repo_url` models
`launchpad.get_snap(md5(git_url))`: the md5 digest is a deterministic
function of the url, so the lookup is keyed here by the url itself;
`none` models the `HTTPError` raised by Launchpad when no such snap exists
(or any other error of that call, which the webhook handler never catches). -/
structure LaunchpadEnv where
  get_snap_builds : String → List LPBuild
  get_builders_status : String → String
  get_snap_by_store_name : String → Option LPSnap
  get_snap_by_repo_url : String → Option LPSnap
  get_snap_record_by_repo_url : String → Except Nat LPSnapRecord
  get_snap_build : String → String → Option LPBuild
  is_snap_building : String → Bool

/-! ## Build-status reconciliation (`map_build_and_upload_states`)

The function lives in `webapp/publisher/snaps/builds.py`, which is not part
of the sources here; it is modelled from the specification. -/

/-- Modelled from the spec: the known build-farm vocabulary (the exact set is
defined by the remote service; it must be treated as an open string matched
against a known table, with a fallback for unknown values). -/
def knownFarmStates : List String :=
  ["Needs building", "Currently building", "Uploading build",
   "Successfully built", "Failed to build", "Dependency wait",
   "Chroot problem", "Build for superseded Source", "Failed to upload",
   "Cancelling build", "Cancelled build"]

/-- Modelled from the spec: the known store-upload vocabulary
(none, uploading, uploaded, rejected, etc.). -/
def knownUploadStates : List String :=
  ["Unscheduled", "Pending", "Failed to upload",
   "Failed to release to channels", "Uploaded"]

/-- Modelled from the spec: the designated safe default status returned for
any unrecognized input (the spec does not fix its label). -/
def defaultStatus : String := "unknown"

/-- Modelled from the spec: farm states that are terminal failures
(terminal failure states in either dimension dominate). -/
def failedFarmStates : List String :=
  ["Failed to build", "Dependency wait", "Chroot problem",
   "Build for superseded Source", "Failed to upload",
   "Cancelling build", "Cancelled build"]

/-- Modelled from the spec: farm states meaning the build is still in flight
("still building" dominates over any upload state). -/
def buildingFarmStates : List String :=
  ["Needs building", "Currently building", "Uploading build"]

/-- Modelled from the spec: the fixed precedence table on recognized inputs:
terminal farm failures dominate, still-building dominates any upload state,
and a successful build with pending/failed upload yields a distinct status
from a successful build with confirmed upload. -/
def reconcileKnown (farm : String) (upload : Option String) : String :=
  if failedFarmStates.contains farm then "failed_to_build"
  else if buildingFarmStates.contains farm then "in_progress"
  else
    match upload with
    | none => "built"
    | some u =>
      if u = "Uploaded" then "released"
      else if u = "Failed to upload" ∨ u = "Failed to release to channels"
        then "release_failed"
      else "release_pending"

/-- Modelled from the spec: `map_build_and_upload_states` of
`webapp/publisher/snaps/builds.py` (imported by the view module but not part
of these sources).  Pure function of `(farmState, uploadState)`; an
unrecognized value in either dimension maps to the safe default instead of
failing (totality embeds "does not raise"). -/
def map_build_and_upload_states (farm : String) (upload : Option String) : String :=
  if knownFarmStates.contains farm then
    match upload with
    | none => reconcileKnown farm none
    | some u =>
      if knownUploadStates.contains u then reconcileKnown farm (some u)
      else defaultStatus
  else defaultStatus

/-! ## `get_builds` -/

/-- One entry of the `snap_builds` view-model list built by `get_builds`. -/
structure SnapBuild where
  id : String
  arch_tag : String
  datebuilt : String
  duration : String
  logs : Option String
  revision_id : Option String
  status : String
  title : String
  queue_time : Option String
deriving DecidableEq, Repr

/-- The dict returned by `get_builds`. -/
structure BuildsView where
  total_builds : Nat
  snap_builds : List SnapBuild
deriving DecidableEq, Repr

/-- The loop body of `get_builds`: one `snap_build` dict.  The source sets
`queue_time` to `None` and overwrites it with
`builders_status[arch_tag]["estimated_duration"]` when the build state is
`"Needs building"` (fetching `builders_status` lazily, which has no
observable effect on the result). -/
def snapBuildRecord (lp : LaunchpadEnv) (build : LPBuild) : SnapBuild :=
  { id := pyLastSegment build.self_link
    arch_tag := build.arch_tag
    datebuilt := build.datebuilt
    duration := build.duration
    logs := build.build_log_url
    revision_id := build.revision_id
    status := map_build_and_upload_states build.buildstate build.store_upload_status
    title := build.title
    queue_time :=
      if build.buildstate = "Needs building"
      then some (lp.get_builders_status build.arch_tag)
      else none }

/-- `get_builds(lp_snap, selection)`: fetch all builds for the store name,
remember the total, slice, and map each build to its view-model record. -/
def get_builds (lp : LaunchpadEnv) (lp_snap : LPSnap) (selection : PySlice) :
    BuildsView :=
  let builds := lp.get_snap_builds lp_snap.store_name
  let total_builds := builds.length
  let sliced := pyGetSlice selection builds
  { total_builds := total_builds
    snap_builds := sliced.map (snapBuildRecord lp) }

/-- `get_snap_builds_json`: reads `start` (default 0) and `size` (default 15)
from the query string, builds `slice(start, size)`, and updates the context
with `get_builds` when a Launchpad snap exists for the store name (`none`
models the context that keeps its initial `{"snap_builds": []}` shape). -/
def get_snap_builds_json (lp : LaunchpadEnv) (details_snap_name : String)
    (start size : Int) : Option BuildsView :=
  let build_slice : PySlice := ⟨start, size⟩
  (lp.get_snap_by_store_name details_snap_name).map
    (fun lp_snap => get_builds lp lp_snap build_slice)

/-- The `snap_build` dict built by the `get_snap_build` handler for one build
(same fields as `get_builds` records, without `queue_time`). -/
structure SnapBuildDetail where
  id : String
  arch_tag : String
  datebuilt : String
  duration : String
  logs : Option String
  revision_id : Option String
  status : String
  title : String
deriving DecidableEq, Repr

/-- The view-model part of `get_snap_build(snap_name, build_id)`: fetch the
build from Launchpad; when present, reshape it (`none` models the empty
`context["snap_build"] = {}`). -/
def get_snap_build (lp : LaunchpadEnv) (details_snap_name build_id : String) :
    Option SnapBuildDetail :=
  (lp.get_snap_build details_snap_name build_id).map fun lp_build =>
    { id := pyLastSegment lp_build.self_link
      arch_tag := lp_build.arch_tag
      datebuilt := lp_build.datebuilt
      duration := lp_build.duration
      logs := lp_build.build_log_url
      revision_id := lp_build.revision_id
      status := map_build_and_upload_states lp_build.buildstate
        lp_build.store_upload_status
      title := lp_build.title }

/-! ## `validate_repo` -/

/-- The GitHub API, as far as the handlers read it.
`get_snapcraft_yaml_name` returns `.error ()` where the client raises
`InvalidYAML`.  `get_hook_by_url` returns the hook id when a hook with the
given url exists; `.error code` models an `HTTPError`.  `create_hook` may
also raise an `HTTPError`.  `validate_webhook_signature` checks the payload
against the `X-Hub-Signature` header with the shared secret. -/
structure GithubEnv where
  get_snapcraft_yaml_location : String → String → Option String
  get_snapcraft_yaml_name : String → String → Except Unit String
  check_permissions_over_repo : String → String → Bool
  get_hook_by_url : String → String → String → Except Nat (Option Nat)
  create_hook : String → String → String → Except Nat Unit
  validate_webhook_signature : String → Option String → Bool

/-- The `result["error"]` dict of `validate_repo` (the two optional keys are
only set in the name-mismatch case). -/
structure RepoError where
  type : String
  message : String
  yaml_location : Option String
  gh_snap_name : Option String
deriving DecidableEq, Repr

/-- The dict returned by `validate_repo`: a boolean `success` key, and an
`error` key present exactly when some branch stored one. -/
structure RepoValidation where
  success : Bool
  error : Option RepoError
deriving DecidableEq, Repr

/-- The `MISSING_YAML_FILE` message (verbatim from the source). -/
def missingYamlMessage : String :=
  "Missing snapcraft.yaml: this repo needs a snapcraft.yaml " ++
  "file, so that Snapcraft can make it buildable, installable " ++
  "and runnable."

/-- The `SNAP_NAME_DOES_NOT_MATCH` message (source text, with the contraction
written out). -/
def nameMismatchMessage (gh_snap_name snap_name : String) : String :=
  "Name mismatch: the snapcraft.yaml uses the snap " ++
  "name \"" ++ gh_snap_name ++ "\", but you have registered" ++
  " the name \"" ++ snap_name ++ "\". Update your " ++
  "snapcraft.yaml to continue."

/-- The `INVALID_YAML_FILE` message (verbatim from the source). -/
def invalidYamlMessage (snap_name : String) : String :=
  "Invalid snapcraft.yaml: there was an issue parsing the " ++
  "snapcraft.yaml for " ++ snap_name ++ "."

/-- `validate_repo(github_token, snap_name, gh_owner, gh_repo)`: starts from
`{"success": True}`; a missing snapcraft.yaml, a snap-name mismatch, or an
`InvalidYAML` raised while reading the name each flip `success` to `False`
and store the corresponding error dict. -/
def validate_repo (github : GithubEnv) (snap_name gh_owner gh_repo : String) :
    RepoValidation :=
  match github.get_snapcraft_yaml_location gh_owner gh_repo with
  | none =>
    { success := false
      error := some
        { type := "MISSING_YAML_FILE"
          message := missingYamlMessage
          yaml_location := none
          gh_snap_name := none } }
  | some yaml_location =>
    match github.get_snapcraft_yaml_name gh_owner gh_repo with
    | .error _ =>
      { success := false
        error := some
          { type := "INVALID_YAML_FILE"
            message := invalidYamlMessage snap_name
            yaml_location := none
            gh_snap_name := none } }
    | .ok gh_snap_name =>
      if gh_snap_name ≠ snap_name then
        { success := false
          error := some
            { type := "SNAP_NAME_DOES_NOT_MATCH"
              message := nameMismatchMessage gh_snap_name snap_name
              yaml_location := some yaml_location
              gh_snap_name := some gh_snap_name } }
      else { success := true, error := none }

/-- Python `result["error"]["message"]` on a validation result (only read by
the source on failed validations, where the key is always present). -/
def RepoValidation.errorMessage (v : RepoValidation) : String :=
  (v.error.map RepoError.message).getD ""

/-! ## `post_build` -/

/-- The dashboard API and session data read by the handlers.
`snap_info` is `api.get_snap_info` (`none` models the 404 error list that
makes the handler abort with 404; other dashboard error paths are not
reached by the claims). -/
structure SnapDetails where
  snap_id : String
  snap_name : String
  title : String
deriving DecidableEq, Repr

structure DashboardEnv where
  snap_info : String → Option SnapDetails
  account_snaps : List String
  macaroon : String

/-- The raising Launchpad calls made inside the `try` of `post_build`
(`is_snap_building`, `cancel_snap_builds`, `build_snap`), each a function of
the snap name; `.error code` models an `HTTPError` whose response carries
that status code. -/
structure BuildFarm where
  is_snap_building : String → Except Nat Bool
  cancel_snap_builds : String → Except Nat Unit
  build_snap : String → Except Nat Unit

/-- The JSON error object of `post_build` responses. -/
structure BuildError where
  type : String
  message : String
deriving DecidableEq, Repr

/-- The JSON body returned by `post_build`. -/
structure BuildResponse where
  success : Bool
  error : Option BuildError
deriving DecidableEq, Repr

/-- The body of the `try` block of `post_build`: cancel any build in flight,
then request a new one. -/
def postBuildAttempt (farm : BuildFarm) (snap_name : String) :
    Except Nat Unit := do
  let building ← farm.is_snap_building snap_name
  if building then farm.cancel_snap_builds snap_name
  farm.build_snap snap_name

/-- `post_build(snap_name)`: non-contributors get a FORBIDDEN body; an
`HTTPError` from Launchpad with status 408 or 404 becomes the soft JSON
failure `{"success": False}`; any other `HTTPError` is re-raised
(`.error code`); otherwise `{"success": True}`. -/
def post_build (dash : DashboardEnv) (farm : BuildFarm) (snap_name : String) :
    Except Nat BuildResponse :=
  if snap_name ∉ dash.account_snaps then
    .ok
      { success := false
        error := some
          { type := "FORBIDDEN"
            message := "You are not allowed to request " ++
              "builds for this snap" } }
  else
    match postBuildAttempt farm snap_name with
    | .ok _ => .ok { success := true, error := none }
    | .error e =>
      if e = 408 ∨ e = 404 then .ok { success := false, error := none }
      else .error e

/-! ## `post_snap_builds` -/

/-- How a handler run ends: a redirect, a `flask.abort`, or an uncaught
Python exception (`AttributeError`, re-raised `HTTPError`, `ValueError` from
tuple unpacking, `TypeError` from subscripting `None`). -/
inductive HandlerOutcome
  | redirected (url : String)
  | aborted (code : Nat)
  | exception (name : String)
deriving DecidableEq, Repr

/-- The observable effects of one `post_snap_builds` run: how it ended, the
flash messages `(message, category)` in order, and whether each outbound
mutating call was made. -/
structure PostSnapBuildsResult where
  outcome : HandlerOutcome
  flashes : List (String × String)
  create_snap_called : Bool
  create_hook_called : Bool
  delete_snap_record_called : Bool
deriving DecidableEq, Repr

/-- `flask.url_for(".get_snap_builds", snap_name=snap_name)`. -/
def urlForGetSnapBuilds (snap_name : String) : String :=
  "/" ++ snap_name ++ "/builds"

/-- The flash shown when the session user is not a contributor of the snap
(source text, with the verb agreement as written there). -/
def noSnapPermissionsMessage : String :=
  "You do not have permissions to modify this Snap"

/-- The flash shown when the GitHub account lacks rights over the repository
(source text, with the contraction written out). -/
def noRepoPermissionsMessage : String :=
  "Your GitHub account does not have permissions in the repository"

/-- The flash shown when the webhook could not be created. -/
def webhookFailedMessage : String :=
  "The GitHub Webhook could not be created. " ++
  "Please trigger a new build manually."

/-- The `create_snap`-and-webhook tail of `post_snap_builds`, reached after
any legacy md5-named record was handled (`deleted` records whether one was
removed). -/
def postSnapBuildsLink (github : GithubEnv)
    (snap_name owner repo redirect_url : String) (deleted : Bool) :
    PostSnapBuildsResult :=
  let flashes :=
    [("The GitHub repository was linked correctly.", "positive")]
  let github_hook_url := "https://snapcraft.io/" ++ snap_name ++ "/webhook/notify"
  match github.get_hook_by_url owner repo github_hook_url with
  | .error _ =>
    { outcome := .redirected redirect_url
      flashes := flashes ++ [(webhookFailedMessage, "caution")]
      create_snap_called := true
      create_hook_called := false
      delete_snap_record_called := deleted }
  | .ok (some _) =>
    { outcome := .redirected redirect_url
      flashes := flashes
      create_snap_called := true
      create_hook_called := false
      delete_snap_record_called := deleted }
  | .ok none =>
    match github.create_hook owner repo github_hook_url with
    | .error _ =>
      { outcome := .redirected redirect_url
        flashes := flashes ++ [(webhookFailedMessage, "caution")]
        create_snap_called := true
        create_hook_called := true
        delete_snap_record_called := deleted }
    | .ok _ =>
      { outcome := .redirected redirect_url
        flashes := flashes
        create_snap_called := true
        create_hook_called := true
        delete_snap_record_called := deleted }

/-- The tail of `post_snap_builds` once no Launchpad snap exists yet for the
store name: look up the md5-named record; a 404 means the repository is
free; a legacy record without a store name is deleted (workaround for issue
2657); a record with a store name makes the handler bail out; then link. -/
def postSnapBuildsCreate (lp : LaunchpadEnv) (github : GithubEnv)
    (snap_name owner repo git_url redirect_url : String) :
    PostSnapBuildsResult :=
  match lp.get_snap_record_by_repo_url git_url with
  | .error e =>
    if e = 404 then
      postSnapBuildsLink github snap_name owner repo redirect_url false
    else
      { outcome := .exception ("HTTPError " ++ toString e)
        flashes := []
        create_snap_called := false
        create_hook_called := false
        delete_snap_record_called := false }
  | .ok repo_exist =>
    if repo_exist.store_name.getD "" = "" then
      postSnapBuildsLink github snap_name owner repo redirect_url true
    else
      { outcome := .redirected redirect_url
        flashes :=
          [("The specified repository is being used by another snap:" ++
             " " ++ repo_exist.store_name.getD "", "negative")]
        create_snap_called := false
        create_hook_called := false
        delete_snap_record_called := false }

/-- `post_snap_builds(snap_name)`: dashboard lookup, contributor check,
repository-permission check, `validate_repo` gate, then either link the
repository (create the Launchpad snap and the GitHub webhook) or bail out
when the store name already has a (different) repository attached.
`github_repository` is the raw form field, split on `"/"`. -/
def post_snap_builds (dash : DashboardEnv) (lp : LaunchpadEnv)
    (github : GithubEnv) (snap_name github_repository : String) :
    PostSnapBuildsResult :=
  let noEffects : HandlerOutcome → List (String × String) → PostSnapBuildsResult :=
    fun o f =>
      { outcome := o
        flashes := f
        create_snap_called := false
        create_hook_called := false
        delete_snap_record_called := false }
  match dash.snap_info snap_name with
  | none => noEffects (.aborted 404) []
  | some details =>
    if snap_name ∉ dash.account_snaps then
      noEffects (.redirected (urlForGetSnapBuilds snap_name))
        [(noSnapPermissionsMessage, "negative")]
    else
      let redirect_url := urlForGetSnapBuilds snap_name
      match pySplitOwnerRepo github_repository with
      | none => noEffects (.exception "ValueError") []
      | some (owner, repo) =>
        if ¬ github.check_permissions_over_repo owner repo then
          noEffects (.redirected redirect_url)
            [(noRepoPermissionsMessage, "negative")]
        else
          let repo_validation := validate_repo github snap_name owner repo
          if ¬ repo_validation.success then
            noEffects (.redirected redirect_url)
              [(repo_validation.errorMessage, "negative")]
          else
            let git_url := "https://github.com/" ++ owner ++ "/" ++ repo
            match lp.get_snap_by_store_name details.snap_name with
            | none =>
              postSnapBuildsCreate lp github snap_name owner repo git_url
                redirect_url
            | some lp_snap =>
              if lp_snap.git_repository_url ≠ git_url then
                noEffects (.exception "AttributeError") []
              else noEffects (.redirected redirect_url) []

/-! ## `post_github_webhook` -/

/-- The fields of the GitHub push-event payload that the webhook handler
reads, plus the raw request body and the signature header. -/
structure WebhookRequest where
  repo_html_url : String
  owner_login : String
  repo_name : String
  default_branch : String
  ref : String
  payload : String
  x_hub_signature : Option String
deriving DecidableEq, Repr

/-- How a webhook run ends: a `(body, status)` response or an uncaught
exception (a `TypeError` from subscripting a missing snap, or an uncaught
`HTTPError` from `launchpad.get_snap`). -/
inductive WebhookOutcome
  | response (body : String) (status : Nat)
  | exception
deriving DecidableEq, Repr

/-- The HTTP status of a webhook outcome, when there is one. -/
def WebhookOutcome.statusCode : WebhookOutcome → Option Nat
  | .response _ s => some s
  | .exception => none

/-- The observable effects of one `post_github_webhook` run. -/
structure WebhookResult where
  outcome : WebhookOutcome
  cancel_called : Bool
  build_snap_called : Bool
deriving DecidableEq, Repr

/-- The snap looked up by the webhook: by store name when the route carried
one, else by the md5 of the repository url (see `get_snap_by_repo_url`);
`none` means the run dies with an uncaught exception before responding. -/
def webhookLookupSnap (lp : LaunchpadEnv) (snap_name : Option String)
    (req : WebhookRequest) : Option LPSnap :=
  match snap_name with
  | some n => lp.get_snap_by_store_name n
  | none => lp.get_snap_by_repo_url req.repo_html_url

/-- `post_github_webhook(snap_name, ...)`: ignore pushes outside the default
branch (200 no-op), reject a repository that is not the one linked to the
snap (403), reject a bad shared-secret signature (403), reject a repository
failing `validate_repo` (400), else cancel any build in flight and request a
new one (204).  The event branch is `request.json["ref"][11:]`, the
`"refs/heads/"` prefix stripped by position. -/
def post_github_webhook (lp : LaunchpadEnv) (github : GithubEnv)
    (snap_name : Option String) (req : WebhookRequest) : WebhookResult :=
  let gh_event_branch := pyDrop 11 req.ref
  if req.default_branch ≠ gh_event_branch then
    { outcome := .response "The push event is not for the default branch" 200
      cancel_called := false
      build_snap_called := false }
  else
    match webhookLookupSnap lp snap_name req with
    | none =>
      { outcome := .exception, cancel_called := false, build_snap_called := false }
    | some lp_snap =>
      if lp_snap.git_repository_url ≠ req.repo_html_url then
        { outcome := .response
            "The repository does not match the one used by this Snap" 403
          cancel_called := false
          build_snap_called := false }
      else if ¬ github.validate_webhook_signature req.payload req.x_hub_signature then
        { outcome := .response "Invalid secret" 403
          cancel_called := false
          build_snap_called := false }
      else
        let validation :=
          validate_repo github lp_snap.store_name req.owner_login req.repo_name
        if ¬ validation.success then
          { outcome := .response validation.errorMessage 400
            cancel_called := false
            build_snap_called := false }
        else
          { outcome := .response "" 204
            cancel_called := lp.is_snap_building lp_snap.store_name
            build_snap_called := true }

/-! ## Lemmas about the Python split primitive -/

theorem pySplitChar_ne_nil (c : Char) (l : List Char) : pySplitChar c l ≠ [] := by
  cases l with
  | nil => simp [pySplitChar]
  | cons x xs =>
    rw [pySplitChar]
    cases h : pySplitChar c xs with
    | nil => simp [pySplitStep]
    | cons y ys =>
      rw [pySplitStep]
      split <;> simp

theorem pySplitChar_of_not_mem {c : Char} {l : List Char} (h : c ∉ l) :
    pySplitChar c l = [l] := by
  induction l with
  | nil => rfl
  | cons x xs ih =>
    simp only [List.mem_cons, not_or] at h
    rw [pySplitChar, ih h.2, pySplitStep, if_neg (Ne.symm h.1)]

theorem two_le_length_pySplitChar {c : Char} {l : List Char} (h : c ∈ l) :
    2 ≤ (pySplitChar c l).length := by
  induction l with
  | nil => cases h
  | cons x xs ih =>
    rw [pySplitChar]
    cases hs : pySplitChar c xs with
    | nil => exact absurd hs (pySplitChar_ne_nil c xs)
    | cons y ys =>
      rw [pySplitStep]
      by_cases hx : x = c
      · simp [hx]
      · have hc : c ∈ xs := by
          rcases List.mem_cons.mp h with h1 | h1
          · exact absurd h1.symm hx
          · exact h1
        have h2 := ih hc
        rw [hs] at h2
        simp only [if_neg hx, List.length_cons] at h2 ⊢
        omega

theorem getLastD_pySplitChar_append (c : Char) (a b : List Char) :
    (pySplitChar c (a ++ c :: b)).getLastD []
      = (pySplitChar c b).getLastD [] := by
  induction a with
  | nil =>
    simp only [List.nil_append]
    rw [pySplitChar]
    cases hs : pySplitChar c b with
    | nil => exact absurd hs (pySplitChar_ne_nil c b)
    | cons y ys => simp [pySplitStep, List.getLastD_cons]
  | cons x a' ih =>
    simp only [List.cons_append]
    rw [pySplitChar]
    cases hs : pySplitChar c (a' ++ c :: b) with
    | nil => exact absurd hs (pySplitChar_ne_nil _ _)
    | cons y ys =>
      rw [pySplitStep]
      by_cases hx : x = c
      · rw [if_pos hx, ← ih, hs]
        simp [List.getLastD_cons]
      · rw [if_neg hx]
        have h2 : 2 ≤ (pySplitChar c (a' ++ c :: b)).length :=
          two_le_length_pySplitChar (by simp)
        rw [hs] at h2
        cases ys with
        | nil => simp at h2
        | cons z zs =>
          rw [← ih, hs]
          simp [List.getLastD_cons]

/-- The last element of a Python `split("/")` of a string that decomposes as
`a ++ "/" ++ b` with no slash in `b` is exactly `b`: the substring after the
last slash. -/
theorem pyLastSegment_eq_trailing (s : String) (a b : List Char)
    (hs : s.data = a ++ '/' :: b) (hb : '/' ∉ b) :
    pyLastSegment s = String.mk b := by
  rw [pyLastSegment, hs, getLastD_pySplitChar_append,
    pySplitChar_of_not_mem hb]
  rfl

/-! ## Sample environments (concrete inputs for witnesses and counterexamples) -/

def sampleBuild : LPBuild :=
  { self_link := "https://launchpad.net/builds/123"
    arch_tag := "amd64"
    datebuilt := "2020-01-01T00:00:00Z"
    duration := "0:03:00"
    build_log_url := some "https://launchpad.net/logs/123"
    revision_id := some "r1"
    buildstate := "Needs building"
    store_upload_status := none
    title := "amd64 build" }

def sampleBuiltBuild : LPBuild :=
  { sampleBuild with
      self_link := "https://launchpad.net/builds/124"
      buildstate := "Successfully built"
      store_upload_status := some "Uploaded" }

def sampleSnap : LPSnap :=
  { store_name := "mysnap"
    git_repository_url := "https://github.com/me/repo" }

def sampleLaunchpad : LaunchpadEnv :=
  { get_snap_builds := fun _ => [sampleBuild, sampleBuiltBuild]
    get_builders_status := fun _ => "0:10:00"
    get_snap_by_store_name := fun n => if n = "mysnap" then some sampleSnap else none
    get_snap_by_repo_url := fun _ => none
    get_snap_record_by_repo_url := fun _ => .error 404
    get_snap_build := fun _ _ => some sampleBuild
    is_snap_building := fun _ => false }

/-! ## Claim theorems -/

/-- C10: the `total_builds` value returned by `get_builds` is the length of
the full, unsliced build list fetched from the build farm, for every
selection slice. -/
theorem claim_C10_total_builds_is_full_length (lp : LaunchpadEnv)
    (lp_snap : LPSnap) (sel : PySlice) :
    (get_builds lp lp_snap sel).total_builds
      = (lp.get_snap_builds lp_snap.store_name).length := rfl

/-- C4: a record produced by `get_builds` has a non-null `queue_time` if and
only if the farm build state of its build is the needs-building state (the
literal Launchpad wording is `"Needs building"`). -/
theorem claim_C4_queue_time_iff_needs_building (lp : LaunchpadEnv)
    (lp_snap : LPSnap) (sel : PySlice) (k : Nat)
    (hk : k < (pyGetSlice sel (lp.get_snap_builds lp_snap.store_name)).length) :
    (((get_builds lp lp_snap sel).snap_builds).get
        ⟨k, by simpa [get_builds] using hk⟩).queue_time ≠ none
      ↔ ((pyGetSlice sel (lp.get_snap_builds lp_snap.store_name)).get
          ⟨k, hk⟩).buildstate = "Needs building" := by
  have hrec : ((get_builds lp lp_snap sel).snap_builds).get
        ⟨k, by simpa [get_builds] using hk⟩
      = snapBuildRecord lp
          ((pyGetSlice sel (lp.get_snap_builds lp_snap.store_name)).get ⟨k, hk⟩) := by
    simp [get_builds, List.get_eq_getElem, List.getElem_map]
  rw [hrec]
  simp only [snapBuildRecord]
  split <;> simp_all

theorem claim_C4_queue_time_iff_needs_building_witness :
    0 < (pyGetSlice ⟨0, 15⟩ (sampleLaunchpad.get_snap_builds "mysnap")).length ∧
    ((((get_builds sampleLaunchpad sampleSnap ⟨0, 15⟩).snap_builds).get
        ⟨0, by decide⟩).queue_time ≠ none
      ↔ ((pyGetSlice ⟨0, 15⟩ (sampleLaunchpad.get_snap_builds "mysnap")).get
          ⟨0, by decide⟩).buildstate = "Needs building") :=
  ⟨by decide,
   claim_C4_queue_time_iff_needs_building sampleLaunchpad sampleSnap ⟨0, 15⟩ 0
     (by decide)⟩

/-- C8: every record handed to the presentation layer (by `get_builds` and by
`get_snap_build`) carries as `id` the trailing path segment of the remote
build resource's `self_link` url: whenever that url decomposes as
`a ++ "/" ++ b` with no `'/'` in `b`, the `id` is exactly `b`. -/
theorem claim_C8_id_is_trailing_segment (lp : LaunchpadEnv)
    (a b : List Char) (hb : '/' ∉ b) :
    (∀ (lp_snap : LPSnap) (sel : PySlice) (k : Nat)
      (hk : k < (pyGetSlice sel (lp.get_snap_builds lp_snap.store_name)).length),
      ((pyGetSlice sel (lp.get_snap_builds lp_snap.store_name)).get
          ⟨k, hk⟩).self_link.data = a ++ '/' :: b →
      (((get_builds lp lp_snap sel).snap_builds).get
          ⟨k, by simpa [get_builds] using hk⟩).id = String.mk b) ∧
    (∀ (n bid : String) (lp_build : LPBuild),
      lp.get_snap_build n bid = some lp_build →
      lp_build.self_link.data = a ++ '/' :: b →
      (get_snap_build lp n bid).map SnapBuildDetail.id = some (String.mk b)) := by
  constructor
  · intro lp_snap sel k hk hself
    have hrec : ((get_builds lp lp_snap sel).snap_builds).get
          ⟨k, by simpa [get_builds] using hk⟩
        = snapBuildRecord lp
            ((pyGetSlice sel (lp.get_snap_builds lp_snap.store_name)).get
              ⟨k, hk⟩) := by
      simp [get_builds, List.get_eq_getElem, List.getElem_map]
    rw [hrec]
    simp only [snapBuildRecord]
    exact pyLastSegment_eq_trailing _ a b hself hb
  · intro n bid lp_build hbuild hself
    rw [get_snap_build, hbuild]
    simp only [Option.map_map, Option.map, Function.comp]
    exact congrArg some (pyLastSegment_eq_trailing _ a b hself hb)

def c8Build : LPBuild :=
  { sampleBuild with self_link := "builds/77" }

def c8Launchpad : LaunchpadEnv :=
  { sampleLaunchpad with
      get_snap_builds := fun _ => [c8Build]
      get_snap_build := fun _ _ => some c8Build }

theorem claim_C8_id_is_trailing_segment_witness :
    ('/' : Char) ∉ "77".data ∧
    (((get_builds c8Launchpad sampleSnap ⟨0, 15⟩).snap_builds).get
        ⟨0, by decide⟩).id = String.mk "77".data ∧
    (get_snap_build c8Launchpad "mysnap" "77").map SnapBuildDetail.id
      = some (String.mk "77".data) :=
  ⟨by decide,
   (claim_C8_id_is_trailing_segment c8Launchpad "builds".data "77".data
      (by decide)).1 sampleSnap ⟨0, 15⟩ 0 (by decide) (by decide),
   (claim_C8_id_is_trailing_segment c8Launchpad "builds".data "77".data
      (by decide)).2 "mysnap" "77" c8Build rfl (by decide)⟩

/-- C5: for every `(farmState, uploadState)` pair in which either value lies
outside the known vocabulary, the status reconciler returns the designated
safe default (its totality embeds that it does not raise). -/
theorem claim_C5_unknown_states_default (farm : String) (upload : Option String)
    (h : farm ∉ knownFarmStates ∨
      ∃ u, upload = some u ∧ u ∉ knownUploadStates) :
    map_build_and_upload_states farm upload = defaultStatus := by
  rcases h with h | ⟨u, hu, hk⟩
  · simp [map_build_and_upload_states, h]
  · subst hu
    rw [map_build_and_upload_states]
    split
    · simp [hk]
    · rfl

theorem claim_C5_unknown_states_default_witness :
    "Totally new state" ∉ knownFarmStates ∧
    map_build_and_upload_states "Totally new state" (some "Pending")
      = defaultStatus ∧
    "Half uploaded" ∉ knownUploadStates ∧
    map_build_and_upload_states "Successfully built" (some "Half uploaded")
      = defaultStatus :=
  ⟨by decide,
   claim_C5_unknown_states_default "Totally new state" (some "Pending")
     (Or.inl (by decide)),
   by decide,
   claim_C5_unknown_states_default "Successfully built" (some "Half uploaded")
     (Or.inr ⟨"Half uploaded", rfl, by decide⟩)⟩

/-- C9: `validate_repo` always returns a record with a boolean `success` and
an `error` that is present exactly when `success` is false; any error carries
one of the three types `MISSING_YAML_FILE`, `SNAP_NAME_DOES_NOT_MATCH`,
`INVALID_YAML_FILE`; and an `InvalidYAML` parse failure (when the yaml file
exists) is reported as `INVALID_YAML_FILE` rather than raised. -/
theorem claim_C9_validate_repo_shape (github : GithubEnv)
    (snap_name gh_owner gh_repo : String) :
    ((validate_repo github snap_name gh_owner gh_repo).error.isSome
      ↔ (validate_repo github snap_name gh_owner gh_repo).success = false) ∧
    (∀ e, (validate_repo github snap_name gh_owner gh_repo).error = some e →
      e.type = "MISSING_YAML_FILE" ∨ e.type = "SNAP_NAME_DOES_NOT_MATCH" ∨
        e.type = "INVALID_YAML_FILE") ∧
    (∀ loc, github.get_snapcraft_yaml_location gh_owner gh_repo = some loc →
      github.get_snapcraft_yaml_name gh_owner gh_repo = .error () →
      (validate_repo github snap_name gh_owner gh_repo).error.map RepoError.type
        = some "INVALID_YAML_FILE") := by
  refine ⟨?_, ?_, ?_⟩
  · rw [validate_repo]
    split
    · simp
    · split
      · simp
      · split <;> simp
  · intro e he
    rw [validate_repo] at he
    revert he
    split
    · intro he
      rw [Option.some_inj] at he
      subst he
      exact Or.inl rfl
    · split
      · intro he
        rw [Option.some_inj] at he
        subst he
        exact Or.inr (Or.inr rfl)
      · split
        · intro he
          rw [Option.some_inj] at he
          subst he
          exact Or.inr (Or.inl rfl)
        · intro he
          cases he
  · intro loc hloc hname
    rw [validate_repo, hloc, hname]
    rfl

def c9Github : GithubEnv :=
  { get_snapcraft_yaml_location := fun _ _ => some "snap/snapcraft.yaml"
    get_snapcraft_yaml_name := fun _ _ => .error ()
    check_permissions_over_repo := fun _ _ => true
    get_hook_by_url := fun _ _ _ => .ok none
    create_hook := fun _ _ _ => .ok ()
    validate_webhook_signature := fun _ _ => true }

theorem claim_C9_validate_repo_shape_witness :
    ((validate_repo c9Github "mysnap" "me" "repo").error.isSome
      ↔ (validate_repo c9Github "mysnap" "me" "repo").success = false) ∧
    (validate_repo c9Github "mysnap" "me" "repo").error.map RepoError.type
      = some "INVALID_YAML_FILE" :=
  ⟨(claim_C9_validate_repo_shape c9Github "mysnap" "me" "repo").1,
   (claim_C9_validate_repo_shape c9Github "mysnap" "me" "repo").2.2
     "snap/snapcraft.yaml" rfl rfl⟩

/-- C7: when the user is a contributor and the Launchpad build sequence of
`post_build` raises an `HTTPError`, a 408 or 404 status yields the soft JSON
failure `{"success": False}` instead of a propagated exception, while any
other status propagates uncaught. -/
theorem claim_C7_transient_farm_errors_soft (dash : DashboardEnv)
    (farm : BuildFarm) (snap_name : String)
    (hmem : snap_name ∈ dash.account_snaps) (e : Nat)
    (hfail : postBuildAttempt farm snap_name = .error e) :
    ((e = 408 ∨ e = 404) →
      post_build dash farm snap_name = .ok { success := false, error := none }) ∧
    (¬(e = 408 ∨ e = 404) → post_build dash farm snap_name = .error e) := by
  constructor <;> intro h <;> simp [post_build, hmem, hfail, h]

def c7Farm : BuildFarm :=
  { is_snap_building := fun _ => .ok false
    cancel_snap_builds := fun _ => .ok ()
    build_snap := fun _ => .error 408 }

def c7Dash : DashboardEnv :=
  { snap_info := fun _ => none
    account_snaps := ["mysnap"]
    macaroon := "m" }

theorem claim_C7_transient_farm_errors_soft_witness :
    "mysnap" ∈ c7Dash.account_snaps ∧
    postBuildAttempt c7Farm "mysnap" = .error 408 ∧
    post_build c7Dash c7Farm "mysnap" = .ok { success := false, error := none } :=
  ⟨by decide, rfl,
   (claim_C7_transient_farm_errors_soft c7Dash c7Farm "mysnap" (by decide) 408
     rfl).1 (Or.inl rfl)⟩

/-- C2: a webhook request whose pushed branch (the `ref` field with its 11
prefix characters `refs/heads/` stripped) differs from the repository default
branch gets the no-op 200 response and never triggers `build_snap`. -/
theorem claim_C2_non_default_branch_noop (lp : LaunchpadEnv)
    (github : GithubEnv) (snap_name : Option String) (req : WebhookRequest)
    (h : pyDrop 11 req.ref ≠ req.default_branch) :
    (post_github_webhook lp github snap_name req).outcome
        = .response "The push event is not for the default branch" 200 ∧
    (post_github_webhook lp github snap_name req).build_snap_called = false := by
  have h2 : req.default_branch ≠ pyDrop 11 req.ref := Ne.symm h
  constructor <;> simp [post_github_webhook, h2]

def c2Req : WebhookRequest :=
  { repo_html_url := "https://github.com/me/repo"
    owner_login := "me"
    repo_name := "repo"
    default_branch := "main"
    ref := "refs/heads/dev"
    payload := "{}"
    x_hub_signature := some "sha1=good" }

theorem claim_C2_non_default_branch_noop_witness :
    pyDrop 11 c2Req.ref ≠ c2Req.default_branch ∧
    (post_github_webhook sampleLaunchpad c9Github (some "mysnap") c2Req).outcome
        = .response "The push event is not for the default branch" 200 ∧
    (post_github_webhook sampleLaunchpad c9Github (some "mysnap")
        c2Req).build_snap_called = false :=
  ⟨by decide,
   (claim_C2_non_default_branch_noop sampleLaunchpad c9Github (some "mysnap")
      c2Req (by decide)).1,
   (claim_C2_non_default_branch_noop sampleLaunchpad c9Github (some "mysnap")
      c2Req (by decide)).2⟩

/-- A GitHub environment whose shared-secret signature check always fails. -/
def c1Github : GithubEnv :=
  { get_snapcraft_yaml_location := fun _ _ => some "snap/snapcraft.yaml"
    get_snapcraft_yaml_name := fun _ _ => .ok "mysnap"
    check_permissions_over_repo := fun _ _ => true
    get_hook_by_url := fun _ _ _ => .ok none
    create_hook := fun _ _ _ => .ok ()
    validate_webhook_signature := fun _ _ => false }

/-- A push event for a non-default branch carrying an invalid signature. -/
def c1Req : WebhookRequest :=
  { repo_html_url := "https://github.com/me/repo"
    owner_login := "me"
    repo_name := "repo"
    default_branch := "main"
    ref := "refs/heads/feature"
    payload := "{}"
    x_hub_signature := some "sha1=bad" }

/-- C1 counterexample: a webhook request whose signature fails the check is
answered with 200 (the branch no-op), not 403, when the pushed branch is not
the default branch — the signature check only runs after the branch and
repository checks. -/
theorem claim_C1_counterexample :
    c1Github.validate_webhook_signature c1Req.payload c1Req.x_hub_signature
        = false ∧
    (post_github_webhook sampleLaunchpad c1Github (some "mysnap")
        c1Req).outcome.statusCode = some 200 ∧
    (post_github_webhook sampleLaunchpad c1Github (some "mysnap")
        c1Req).outcome.statusCode ≠ some 403 := by
  refine ⟨rfl, ?_, ?_⟩ <;> decide

/-- C1 amended: a webhook request whose payload signature fails the check
never triggers `build_snap`; and it is answered 403 provided the pushed
branch matches the default branch and the snap lookup succeeds (otherwise the
handler has already answered the no-op 200 or died on the failed lookup). -/
theorem claim_C1_bad_signature_no_build (lp : LaunchpadEnv)
    (github : GithubEnv) (snap_name : Option String) (req : WebhookRequest)
    (hsig : github.validate_webhook_signature req.payload req.x_hub_signature
      = false) :
    (post_github_webhook lp github snap_name req).build_snap_called = false ∧
    (∀ lp_snap, webhookLookupSnap lp snap_name req = some lp_snap →
      pyDrop 11 req.ref = req.default_branch →
      (post_github_webhook lp github snap_name req).outcome.statusCode
        = some 403) := by
  constructor
  · simp only [post_github_webhook]
    split
    · rfl
    · cases hl : webhookLookupSnap lp snap_name req with
      | none => rfl
      | some lp_snap =>
        simp [hsig]
        split <;> simp
  · intro lp_snap hl hbr
    simp only [post_github_webhook, hbr]
    rw [if_neg (by simp), hl]
    simp [hsig]
    split <;> simp [WebhookOutcome.statusCode]

/-- A push event to the default branch of the linked repository, with an
invalid signature. -/
def c1bReq : WebhookRequest :=
  { repo_html_url := "https://github.com/me/repo"
    owner_login := "me"
    repo_name := "repo"
    default_branch := "main"
    ref := "refs/heads/main"
    payload := "{}"
    x_hub_signature := some "sha1=bad" }

theorem claim_C1_bad_signature_no_build_witness :
    c1Github.validate_webhook_signature c1bReq.payload c1bReq.x_hub_signature
        = false ∧
    (post_github_webhook sampleLaunchpad c1Github (some "mysnap")
        c1bReq).build_snap_called = false ∧
    (post_github_webhook sampleLaunchpad c1Github (some "mysnap")
        c1bReq).outcome.statusCode = some 403 :=
  ⟨rfl,
   (claim_C1_bad_signature_no_build sampleLaunchpad c1Github (some "mysnap")
      c1bReq rfl).1,
   (claim_C1_bad_signature_no_build sampleLaunchpad c1Github (some "mysnap")
      c1bReq rfl).2 sampleSnap (by decide) (by decide)⟩

/-- A GitHub environment in which the repository declares snap name
`othersnap` in its snapcraft.yaml, but the session user has no permissions
over the repository. -/
def c3Github : GithubEnv :=
  { get_snapcraft_yaml_location := fun _ _ => some "snapcraft.yaml"
    get_snapcraft_yaml_name := fun _ _ => .ok "othersnap"
    check_permissions_over_repo := fun _ _ => false
    get_hook_by_url := fun _ _ _ => .ok none
    create_hook := fun _ _ _ => .ok ()
    validate_webhook_signature := fun _ _ => true }

def c3Dash : DashboardEnv :=
  { snap_info := fun n =>
      if n = "mysnap" then some ⟨"snap-id", "mysnap", "My Snap"⟩ else none
    account_snaps := ["mysnap"]
    macaroon := "m" }

/-- C3 counterexample: a connect-repository request whose snapcraft.yaml
declares a different snap name does not necessarily fail validation with a
`SNAP_NAME_DOES_NOT_MATCH` error: when the repository-permission check fails
first, the handler answers with the permission flash and `validate_repo`
never runs. -/
theorem claim_C3_counterexample :
    c3Github.get_snapcraft_yaml_name "me" "repo" = .ok "othersnap" ∧
    ("othersnap" : String) ≠ "mysnap" ∧
    (post_snap_builds c3Dash sampleLaunchpad c3Github "mysnap"
        "me/repo").flashes = [(noRepoPermissionsMessage, "negative")] ∧
    (∀ f ∈ (post_snap_builds c3Dash sampleLaunchpad c3Github "mysnap"
        "me/repo").flashes,
      f.1 ≠ nameMismatchMessage "othersnap" "mysnap") := by
  exact ⟨rfl, by decide, by decide, by decide⟩

/-- C3 amended: when the snap name declared in the snapcraft.yaml differs
from the target snap name, `validate_repo` fails with an error of type
`SNAP_NAME_DOES_NOT_MATCH`, and `post_snap_builds` never calls
`launchpad.create_snap` nor `github.create_hook`; the mismatch error is the
one surfaced provided the request passes the contributor and
repository-permission checks (otherwise those checks answer first). -/
theorem claim_C3_name_mismatch_blocks_creation (dash : DashboardEnv)
    (lp : LaunchpadEnv) (github : GithubEnv)
    (snap_name form owner repo g loc : String)
    (hsplit : pySplitOwnerRepo form = some (owner, repo))
    (hloc : github.get_snapcraft_yaml_location owner repo = some loc)
    (hname : github.get_snapcraft_yaml_name owner repo = .ok g)
    (hne : g ≠ snap_name) :
    ((validate_repo github snap_name owner repo).error.map RepoError.type
        = some "SNAP_NAME_DOES_NOT_MATCH") ∧
    (post_snap_builds dash lp github snap_name form).create_snap_called
        = false ∧
    (post_snap_builds dash lp github snap_name form).create_hook_called
        = false ∧
    (∀ details, dash.snap_info snap_name = some details →
      snap_name ∈ dash.account_snaps →
      github.check_permissions_over_repo owner repo = true →
      (post_snap_builds dash lp github snap_name form).outcome
          = .redirected (urlForGetSnapBuilds snap_name) ∧
      (nameMismatchMessage g snap_name, "negative")
        ∈ (post_snap_builds dash lp github snap_name form).flashes) := by
  have hval : validate_repo github snap_name owner repo
      = { success := false
          error := some
            { type := "SNAP_NAME_DOES_NOT_MATCH"
              message := nameMismatchMessage g snap_name
              yaml_location := some loc
              gh_snap_name := some g } } := by
    simp [validate_repo, hloc, hname, hne]
  have hres : ∀ details, dash.snap_info snap_name = some details →
      snap_name ∈ dash.account_snaps →
      github.check_permissions_over_repo owner repo = true →
      post_snap_builds dash lp github snap_name form
        = { outcome := .redirected (urlForGetSnapBuilds snap_name)
            flashes := [(nameMismatchMessage g snap_name, "negative")]
            create_snap_called := false
            create_hook_called := false
            delete_snap_record_called := false } := by
    intro details h1 h2 h3
    simp [post_snap_builds, h1, h2, h3, hsplit, hval,
      RepoValidation.errorMessage]
  have hflags :
      (post_snap_builds dash lp github snap_name form).create_snap_called
          = false ∧
      (post_snap_builds dash lp github snap_name form).create_hook_called
          = false := by
    cases hinfo : dash.snap_info snap_name with
    | none => simp [post_snap_builds, hinfo]
    | some details =>
      by_cases hacct : snap_name ∈ dash.account_snaps
      · by_cases hperm : github.check_permissions_over_repo owner repo = true
        · rw [hres details hinfo hacct hperm]
          exact ⟨rfl, rfl⟩
        · simp [post_snap_builds, hinfo, hacct, hperm, hsplit]
      · simp [post_snap_builds, hinfo, hacct]
  refine ⟨by rw [hval]; rfl, hflags.1, hflags.2, ?_⟩
  intro details h1 h2 h3
  rw [hres details h1 h2 h3]
  exact ⟨rfl, by simp⟩

/-- The dashboard and GitHub environments of the happy path to validation:
contributor with repository permissions, mismatching yaml name. -/
def c3bGithub : GithubEnv :=
  { c3Github with check_permissions_over_repo := fun _ _ => true }

theorem claim_C3_name_mismatch_blocks_creation_witness :
    c3bGithub.get_snapcraft_yaml_name "me" "repo" = .ok "othersnap" ∧
    ((validate_repo c3bGithub "mysnap" "me" "repo").error.map RepoError.type
        = some "SNAP_NAME_DOES_NOT_MATCH") ∧
    (post_snap_builds c3Dash sampleLaunchpad c3bGithub "mysnap"
        "me/repo").create_snap_called = false ∧
    (post_snap_builds c3Dash sampleLaunchpad c3bGithub "mysnap"
        "me/repo").create_hook_called = false ∧
    (post_snap_builds c3Dash sampleLaunchpad c3bGithub "mysnap"
        "me/repo").outcome = .redirected (urlForGetSnapBuilds "mysnap") ∧
    (nameMismatchMessage "othersnap" "mysnap", "negative")
      ∈ (post_snap_builds c3Dash sampleLaunchpad c3bGithub "mysnap"
          "me/repo").flashes :=
  ⟨rfl,
   (claim_C3_name_mismatch_blocks_creation c3Dash sampleLaunchpad c3bGithub
      "mysnap" "me/repo" "me" "repo" "othersnap" "snapcraft.yaml"
      (by decide) rfl rfl (by decide)).1,
   (claim_C3_name_mismatch_blocks_creation c3Dash sampleLaunchpad c3bGithub
      "mysnap" "me/repo" "me" "repo" "othersnap" "snapcraft.yaml"
      (by decide) rfl rfl (by decide)).2.1,
   (claim_C3_name_mismatch_blocks_creation c3Dash sampleLaunchpad c3bGithub
      "mysnap" "me/repo" "me" "repo" "othersnap" "snapcraft.yaml"
      (by decide) rfl rfl (by decide)).2.2.1,
   ((claim_C3_name_mismatch_blocks_creation c3Dash sampleLaunchpad c3bGithub
      "mysnap" "me/repo" "me" "repo" "othersnap" "snapcraft.yaml"
      (by decide) rfl rfl (by decide)).2.2.2 ⟨"snap-id", "mysnap", "My Snap"⟩
      (by decide) (by decide) rfl).1,
   ((claim_C3_name_mismatch_blocks_creation c3Dash sampleLaunchpad c3bGithub
      "mysnap" "me/repo" "me" "repo" "othersnap" "snapcraft.yaml"
      (by decide) rfl rfl (by decide)).2.2.2 ⟨"snap-id", "mysnap", "My Snap"⟩
      (by decide) (by decide) rfl).2⟩

/-- A Launchpad environment holding 30 builds for the snap. -/
def c6Launchpad : LaunchpadEnv :=
  { sampleLaunchpad with
      get_snap_builds := fun _ => List.replicate 30 sampleBuild }

/-- C6: the JSON list-builds endpoint builds `slice(start, size)`, so the
`size` query parameter is used as the absolute stop index of the slice, not
as a page length: with 30 builds available, `start=0&size=15` returns 15
builds, but `start=15&size=15` returns 0 builds instead of the page of up to
15 builds beginning at offset 15. -/
theorem claim_C6_size_is_stop_index_bug :
    (c6Launchpad.get_snap_builds "mysnap").length = 30 ∧
    (get_snap_builds_json c6Launchpad "mysnap" 0 15).map
        (fun v => v.snap_builds.length) = some 15 ∧
    (get_snap_builds_json c6Launchpad "mysnap" 15 15).map
        (fun v => v.snap_builds.length) = some 0 := by
  refine ⟨by decide, ?_, ?_⟩ <;> decide
